import Mathlib

/-!
# Verification of the directory-site generator (`src/scripts/generate-html.ts`)

Shallow embedding of the denormalization / cross-linking core of the
generator: state-name backfill, address-based city/state inference,
aggregation counting, view-model projection, and sitemap chunking.

Modelling conventions:
* CSV rows yield plain strings for every column; an absent or empty cell is
  the empty string `""`.  All JavaScript truthiness tests on those string
  fields (`salon.address && ...`, `!salon.city_id`, ...) therefore become
  `≠ ""` tests.
* JavaScript string helpers (`split(',')`, `trim()`, `toLowerCase()`) are
  re-implemented over `String.data` so every definition reduces in the
  kernel.  `trim`/`toLowerCase` are modelled on the ASCII range, which is
  all the claims exercise.
* A JavaScript `Map` built from `new Map(list.map(x => [x.id, x]))`, whose
  values alias the array elements, is modelled by the backing list itself:
  `getKey` returns the last element carrying a key (last-write-wins),
  `hasKey` tests key membership, `entriesOf` lists the map's iteration
  order (first-insertion key order, last-written values), and an in-place
  mutation of a map value becomes `updLast` (update of the last element
  with a given key, positions preserved).
* Derived numeric fields (`salon_count`, `city_count`) start at `0`,
  mirroring `(x.count || 0) + 1` on fields absent from the CSV.
* `slugify` is an external npm library (spec §1 treats it as an external
  pure function); the projection builders take it as a function parameter.
-/

namespace DirGen

/-- ASCII lower-casing of a string, modelling JavaScript `toLowerCase()`. -/
def lowerStr (s : String) : String := ⟨s.data.map Char.toLower⟩

/-- JavaScript whitespace test (ASCII subset), used by `trim()`. -/
def isWs (c : Char) : Bool := c == ' ' || c == '\t' || c == '\n' || c == '\r'

/-- Character-list version of JavaScript `trim()`. -/
def trimList (l : List Char) : List Char :=
  ((l.dropWhile isWs).reverse.dropWhile isWs).reverse

/-- JavaScript `s.trim()`. -/
def jsTrim (s : String) : String := ⟨trimList s.data⟩

/-- Character-list splitter on `','`; always returns at least one group,
so `"" → [""]`, matching JavaScript `"".split(',') === [""]`. -/
def splitCommaList : List Char → List (List Char)
  | [] => [[]]
  | c :: cs =>
    match splitCommaList cs with
    | [] => [[]]
    | g :: gs => if c == ',' then [] :: g :: gs else (c :: g) :: gs

/-- JavaScript `s.split(',')`. -/
def jsSplitComma (s : String) : List String := (splitCommaList s.data).map (fun l => ⟨l⟩)


/-! ## JavaScript `Map` model over a backing list -/
/-- `Map.get k`: the last element of the backing list whose key is `k`
(last-write-wins on duplicate keys). -/
def getKey (kf : α → String) : List α → String → Option α
  | [], _ => none
  | x :: xs, k =>
    match getKey kf xs k with
    | some y => some y
    | none => if kf x == k then some x else none

/-- `Map.has k`. -/
def hasKey (kf : α → String) (l : List α) (k : String) : Bool :=
  l.any (fun x => kf x == k)

/-- Keys of the map in first-insertion order. -/
def keysIn (kf : α → String) (l : List α) : List String :=
  l.foldl (fun ks x => if ks.contains (kf x) then ks else ks ++ [kf x]) []

/-- `Map.entries()` iteration: first-insertion key order, last-written values. -/
def entriesOf (kf : α → String) (l : List α) : List α :=
  (keysIn kf l).filterMap (fun k => getKey kf l k)

/-- In-place mutation of the map value for the key selected by `p`
(`p` holds exactly of elements carrying that key): the last matching
element of the backing array is replaced by its image under `f`;
positions are preserved, mirroring mutation through the aliasing `Map`. -/
def updLast (p : α → Bool) (f : α → α) : List α → List α
  | [] => []
  | x :: xs =>
    if xs.any p then x :: updLast p f xs
    else if p x then f x :: xs
    else x :: xs


/-! ## Data model (from the TypeScript interfaces) -/
/-- `interface BeautySalon` — all fields are CSV strings; `""` = absent. -/
structure BeautySalon where
  id : String := ""
  title : String := ""
  website : String := ""
  telephone : String := ""
  address : String := ""
  postal_code : String := ""
  latitude : String := ""
  longitude : String := ""
  email : String := ""
  opening_hours : String := ""
  description : String := ""
  service_product : String := ""
  reviews : String := ""
  average_star : String := ""
  city_id : String := ""
  city_name : String := ""
  state_id : String := ""
  state_name : String := ""
  category_ids : String := ""
  detail_keys : String := ""
  detail_values : String := ""
  amenity_ids : String := ""
  payment_ids : String := ""
  images : String := ""
  deriving Repr, DecidableEq

/-- `interface City` (derived `state_name` starts unset, `salon_count` 0). -/
structure City where
  id : String := ""
  city : String := ""
  state_id : String := ""
  state_name : String := ""
  salon_count : Nat := 0
  deriving Repr, DecidableEq

/-- `interface State`. -/
structure State where
  id : String := ""
  state : String := ""
  city_count : Nat := 0
  salon_count : Nat := 0
  deriving Repr, DecidableEq

/-- `interface Category`. -/
structure Category where
  id : String := ""
  category : String := ""
  salon_count : Nat := 0
  deriving Repr, DecidableEq


/-! ## Entity Resolver: state-name backfill (generate-html.ts lines 187-191) -/
/-- One step of the backfill loop:
`if (city.state_id && statesMap.has(city.state_id)) city.state_name = statesMap.get(city.state_id)!.state`. -/
def backfillCity (states : List State) (city : City) : City :=
  if city.state_id != "" then
    match getKey State.id states city.state_id with
    | some st => { city with state_name := st.state }
    | none => city
  else city

/-- The backfill pass over the cities array. -/
def backfillCities (states : List State) (cities : List City) : List City :=
  cities.map (backfillCity states)


/-! ## Link Inference Engine (generate-html.ts lines 194-221) -/
/-- The trimmed comma-segments of the salon's address:
`salon.address.split(',').map(part => part.trim())`. -/
def addressParts (salon : BeautySalon) : List String :=
  (jsSplitComma salon.address).map jsTrim

/-- Linear search of the city map in insertion order for the first city
whose name equals the candidate case-insensitively (the `for ... of
citiesMap.entries()` loop with `break`). -/
def findCityByName (cities : List City) (name : String) : Option City :=
  (entriesOf City.id cities).find? (fun city => lowerStr city.city == lowerStr name)

/-- Linear search of the state map, same shape as `findCityByName`. -/
def findStateByName (states : List State) (name : String) : Option State :=
  (entriesOf State.id states).find? (fun st => lowerStr st.state == lowerStr name)

/-- The inference body for one salon (lines 196–220):
trigger `salon.address && !salon.city_id && !salon.state_id`; with at
least 3 trimmed comma-segments, the third-from-last is the city candidate
and the second-from-last the state candidate; the two linear searches are
independent. -/
def inferSalon (cities : List City) (states : List State) (salon : BeautySalon) :
    BeautySalon :=
  if salon.address != "" && salon.city_id == "" && salon.state_id == "" then
    let parts := addressParts salon
    if 3 ≤ parts.length then
      let cityName := parts.getD (parts.length - 3) ""
      let stateName := parts.getD (parts.length - 2) ""
      let s1 :=
        match findCityByName cities cityName with
        | some city => { salon with city_id := city.id, city_name := city.city }
        | none => salon
      match findStateByName states stateName with
      | some st => { s1 with state_id := st.id, state_name := st.state }
      | none => s1
    else salon
  else salon

/-- The inference pass over all salons. -/
def inferSalons (cities : List City) (states : List State)
    (salons : List BeautySalon) : List BeautySalon :=
  salons.map (inferSalon cities states)


/-! ## Aggregation Engine (generate-html.ts lines 224-254) -/
/-- The three mutable tables the counting pass increments through the
lookup maps (the lists also stand for the backing arrays; see the aliasing
convention in the header). -/
structure Tables where
  cities : List City
  states : List State
  categories : List Category
  deriving Repr, DecidableEq

/-- `city.salon_count = (city.salon_count || 0) + 1`. -/
def incCityF (c : City) : City := { c with salon_count := c.salon_count + 1 }

/-- `state.salon_count = (state.salon_count || 0) + 1`. -/
def incStateSalonF (st : State) : State := { st with salon_count := st.salon_count + 1 }

/-- `state.city_count = (state.city_count || 0) + 1`. -/
def incStateCityF (st : State) : State := { st with city_count := st.city_count + 1 }

/-- `category.salon_count = (category.salon_count || 0) + 1`. -/
def incCatF (c : Category) : Category := { c with salon_count := c.salon_count + 1 }

/-- City salon_count increment applied to the map value for key `k`. -/
def incCitySalonCount (cities : List City) (k : String) : List City :=
  updLast (fun c => c.id == k) incCityF cities

/-- State salon_count increment applied to the map value for key `k`. -/
def incStateSalonCount (states : List State) (k : String) : List State :=
  updLast (fun st => st.id == k) incStateSalonF states

/-- State city_count increment applied to the map value for key `k`. -/
def incStateCityCount (states : List State) (k : String) : List State :=
  updLast (fun st => st.id == k) incStateCityF states

/-- Category salon_count increment applied to the map value for key `k`. -/
def incCategorySalonCount (categories : List Category) (k : String) : List Category :=
  updLast (fun c => c.id == k) incCatF categories

/-- City part of the per-salon counting loop body (lines 226–229):
`if (salon.city_id && citiesMap.has(salon.city_id)) ...count += 1`. -/
def countStepCities (cities : List City) (salon : BeautySalon) : List City :=
  if salon.city_id != "" && hasKey City.id cities salon.city_id then
    incCitySalonCount cities salon.city_id
  else cities

/-- State part of the per-salon counting loop body (lines 231–235). -/
def countStepStates (states : List State) (salon : BeautySalon) : List State :=
  if salon.state_id != "" && hasKey State.id states salon.state_id then
    incStateSalonCount states salon.state_id
  else states

/-- Category part of the per-salon counting loop body (lines 237–245):
`if (salon.category_ids) salon.category_ids.split(',').forEach(...)`. -/
def countStepCategories (categories : List Category) (salon : BeautySalon) : List Category :=
  if salon.category_ids != "" then
    (jsSplitComma salon.category_ids).foldl
      (fun cs categoryId =>
        if hasKey Category.id cs categoryId then incCategorySalonCount cs categoryId
        else cs)
      categories
  else categories

/-- Body of the per-salon counting loop (lines 224–246); the three tables
are updated independently. -/
def countStep (t : Tables) (salon : BeautySalon) : Tables :=
  ⟨countStepCities t.cities salon, countStepStates t.states salon,
    countStepCategories t.categories salon⟩

/-- The single counting pass over all salons (run after inference). -/
def countSalons (salons : List BeautySalon) (t : Tables) : Tables :=
  salons.foldl countStep t

/-- Body of the cities-per-state loop (lines 249–254). -/
def countCityStep (states : List State) (city : City) : List State :=
  if city.state_id != "" && hasKey State.id states city.state_id then
    incStateCityCount states city.state_id
  else states

/-- The cities-per-state pass (lines 249–254), run after `countSalons`
over the (by then annotated) cities array. -/
def countCitiesPerState (cities : List City) (states : List State) : List State :=
  cities.foldl countCityStep states


/-! ## Projection Builder (generate-html.ts lines 257-394) -/
/-- `x ? x.split(',') : []` — the multi-value field split used for all six
list fields of the salon projection (lines 283–288). -/
def splitMulti (field : String) : List String :=
  if field != "" then jsSplitComma field else []

/-- The projected salon view-model record (lines 263–289). -/
structure ProcessedSalon where
  id : String := ""
  title : String := ""
  slug : String := ""
  website : String := ""
  telephone : String := ""
  address : String := ""
  postal_code : String := ""
  latitude : String := ""
  longitude : String := ""
  email : String := ""
  opening_hours : String := ""
  description : String := ""
  service_product : String := ""
  reviews : String := ""
  average_star : String := ""
  city_id : String := ""
  city_name : String := ""
  state_id : String := ""
  state_name : String := ""
  category_ids : List String := []
  detail_keys : List String := []
  detail_values : List String := []
  amenity_ids : List String := []
  payment_ids : List String := []
  images : List String := []
  deriving Repr, DecidableEq

/-- `processedSalons` body for one salon (lines 257–290); `slugify` is the
external slug library, passed in as a pure function. -/
def processSalon (slugify : String → String) (salon : BeautySalon) : ProcessedSalon :=
  let citySlug := if salon.city_name != "" then slugify salon.city_name else "unknown-city"
  let stateSlug := if salon.state_name != "" then slugify salon.state_name else "unknown-state"
  { id := salon.id
    title := salon.title
    slug := slugify (citySlug ++ "-" ++ stateSlug ++ "-" ++ salon.title ++ "-" ++ salon.id)
    website := salon.website
    telephone := salon.telephone
    address := salon.address
    postal_code := salon.postal_code
    latitude := salon.latitude
    longitude := salon.longitude
    email := salon.email
    opening_hours := salon.opening_hours
    description := salon.description
    service_product := salon.service_product
    reviews := salon.reviews
    average_star := salon.average_star
    city_id := salon.city_id
    city_name := salon.city_name
    state_id := salon.state_id
    state_name := salon.state_name
    category_ids := splitMulti salon.category_ids
    detail_keys := splitMulti salon.detail_keys
    detail_values := splitMulti salon.detail_values
    amenity_ids := splitMulti salon.amenity_ids
    payment_ids := splitMulti salon.payment_ids
    images := splitMulti salon.images }

/-- The projected city view-model record (lines 320–327). -/
structure ProcessedCity where
  id : String := ""
  city : String := ""
  slug : String := ""
  state_id : String := ""
  state_name : String := ""
  salon_ids : List String := []
  deriving Repr, DecidableEq

/-- Membership filter for a city's `salon_ids` (lines 305–317): id match
`salon.city_id && salon.city_id === city.id`, else name fallback
`salon.city_name && lower(salon.city_name) === lower(city.city)`. -/
def citySalonFilter (city : City) (salon : ProcessedSalon) : Bool :=
  if salon.city_id != "" && salon.city_id == city.id then true
  else if salon.city_name != "" && lowerStr salon.city_name == lowerStr city.city then true
  else false

/-- `processedCities` body for one city (lines 298–328). -/
def processCity (slugify : String → String) (processedSalons : List ProcessedSalon)
    (city : City) : ProcessedCity :=
  { id := city.id
    city := city.city
    slug := slugify (city.city ++ "-" ++ city.state_id)
    state_id := city.state_id
    state_name := city.state_name
    salon_ids := ((processedSalons.filter (citySalonFilter city)).map (fun s => s.id)) }

/-- `processedCities` (a map over the cities array as mutated in place). -/
def processCities (slugify : String → String) (cities : List City)
    (processedSalons : List ProcessedSalon) : List ProcessedCity :=
  cities.map (processCity slugify processedSalons)

/-- The projected state view-model record (lines 367–373). -/
structure ProcessedState where
  id : String := ""
  state : String := ""
  slug : String := ""
  city_ids : List String := []
  salon_ids : List String := []
  deriving Repr, DecidableEq

/-- Membership filter for a state's `salon_ids` (lines 346–365): guarded
state_id equality, guarded case-insensitive state_name equality, or
guarded membership of the salon's city_id in this state's city_ids. -/
def stateSalonFilter (state : State) (cityIdsForState : List String)
    (salon : ProcessedSalon) : Bool :=
  if salon.state_id != "" && salon.state_id == state.id then true
  else if salon.state_name != "" && lowerStr salon.state_name == lowerStr state.state then true
  else if salon.city_id != "" && cityIdsForState.contains salon.city_id then true
  else false

/-- `processedStates` body for one state (lines 336–374). -/
def processState (slugify : String → String) (processedCities : List ProcessedCity)
    (processedSalons : List ProcessedSalon) (state : State) : ProcessedState :=
  let cityIdsForState :=
    (processedCities.filter (fun city => city.state_id == state.id)).map (fun c => c.id)
  { id := state.id
    state := state.state
    slug := slugify state.state
    city_ids := cityIdsForState
    salon_ids :=
      ((processedSalons.filter (stateSalonFilter state cityIdsForState)).map (fun s => s.id)) }

/-- `processedStates` (a map over the states array as mutated in place). -/
def processStates (slugify : String → String) (states : List State)
    (processedCities : List ProcessedCity) (processedSalons : List ProcessedSalon) :
    List ProcessedState :=
  states.map (processState slugify processedCities processedSalons)

/-- The projected category view-model record (lines 386–393). -/
structure ProcessedCategory where
  id : String := ""
  category : String := ""
  slug : String := ""
  salon_ids : List String := []
  deriving Repr, DecidableEq

/-- `processedCategories` body for one category (lines 382–394):
membership is exact string membership of the category id in the salon's
split `category_ids` (`salon.category_ids.includes(category.id)`). -/
def processCategory (slugify : String → String) (processedSalons : List ProcessedSalon)
    (category : Category) : ProcessedCategory :=
  { id := category.id
    category := category.category
    slug := slugify category.category
    salon_ids :=
      ((processedSalons.filter (fun s => s.category_ids.contains category.id)).map
        (fun s => s.id)) }

/-- `processedCategories`. -/
def processCategories (slugify : String → String) (categories : List Category)
    (processedSalons : List ProcessedSalon) : List ProcessedCategory :=
  categories.map (processCategory slugify processedSalons)


/-! ## Sitemap chunking (generate-html.ts lines 699-720) -/
/-- Fuel-indexed chunking loop: models
`for (let i = 0; i < salons.length; i += 200) { chunk = salons.slice(i, i + 200); ... }`.
The fuel is instantiated with the list length, which always suffices. -/
def chunksGo (l : List ProcessedSalon) : Nat → List (List ProcessedSalon)
  | 0 => []
  | fuel + 1 =>
    if l.isEmpty then [] else l.take 200 :: chunksGo (l.drop 200) fuel

/-- The successive 200-element chunks of the salon list. -/
def companyChunks (salons : List ProcessedSalon) : List (List ProcessedSalon) :=
  chunksGo salons salons.length

/-- The generated company sitemap files as (filename, chunk) pairs;
`sitemapIndex = Math.floor(i / 200) + 1` gives the 1-based index. -/
def companySitemapFiles (salons : List ProcessedSalon) :
    List (String × List ProcessedSalon) :=
  (companyChunks salons).enum.map
    (fun p => ("companies-sitemap" ++ toString (p.1 + 1) ++ ".xml", p.2))


/-! ## Pipeline composition (resolution phases, in source order) -/
/-- One run of the resolution phases: state-name backfill (lines 187–191)
followed by address inference (lines 194–221) against the backfilled city
map. -/
def resolveOnce (states : List State) (cities : List City)
    (salons : List BeautySalon) : List City × List BeautySalon :=
  let cities1 := backfillCities states cities
  (cities1, inferSalons cities1 states salons)


/-! ## Generic keyed counting fold and helper abbreviations -/
/-- `n`-fold application of `f`, innermost first. -/
def iterN (f : α → α) : Nat → α → α
  | 0, c => c
  | n + 1, c => iterN f n (f c)

/-- One step of the generic counting pass: the item contributes (via
`keyOf`) at most one key; if that key is present in the map, the map value
for it is mutated by `f`. -/
def stepKeyed (kf : α → String) (f : α → α) (keyOf : ι → Option String)
    (acc : List α) (i : ι) : List α :=
  match keyOf i with
  | some k => if hasKey kf acc k then updLast (fun x => kf x == k) f acc else acc
  | none => acc

/-- Generic shape of all four counting passes. -/
def foldKeyed (kf : α → String) (f : α → α) (keyOf : ι → Option String)
    (items : List ι) (l : List α) : List α :=
  items.foldl (stepKeyed kf f keyOf) l

/-- Key contributed by a salon to the city salon_count pass. -/
def cityKeyOf (s : BeautySalon) : Option String :=
  if s.city_id != "" then some s.city_id else none

/-- Key contributed by a salon to the state salon_count pass. -/
def stateKeyOf (s : BeautySalon) : Option String :=
  if s.state_id != "" then some s.state_id else none

/-- Key contributed by a city to the state city_count pass. -/
def cityStateKeyOf (c : City) : Option String :=
  if c.state_id != "" then some c.state_id else none

/-- The comma-segments a salon contributes to the category pass
(truthiness-guarded, untrimmed). -/
def catSegs (s : BeautySalon) : List String :=
  if s.category_ids != "" then jsSplitComma s.category_ids else []


/-! ## Fixtures for concrete claims -/
/-- C2 counterexample: a city whose id is the empty string. -/
def c2cexCities : List City := [{ id := "", city := "X" }]

/-- C2 counterexample: a salon whose city_id field is empty. -/
def c2cexSalons : List BeautySalon := [{ id := "b1", title := "T" }]

/-- C2 witness fixture city. -/
def c2wCity : City := { id := "c1", city := "X", state_id := "s1" }

/-- C2 witness fixture state. -/
def c2wState : State := { id := "s1", state := "Y" }

/-- C2 witness fixture category. -/
def c2wCat : Category := { id := "g1", category := "Z" }

/-- C2 witness fixture city table. -/
def c2wCities : List City := [c2wCity]

/-- C2 witness fixture state table. -/
def c2wStates : List State := [c2wState]

/-- C2 witness fixture category table. -/
def c2wCategories : List Category := [c2wCat]

/-- C2 witness fixture salons: one salon fully linked. -/
def c2wSalons : List BeautySalon :=
  [{ id := "b1", title := "T", city_id := "c1", state_id := "s1", category_ids := "g1" }]

/-- C3 fixture: one state named Illinois. -/
def c3States : List State := [{ id := "s1", state := "Illinois" }]

/-- C3 fixture: one salon carrying only a state_name (no state_id, no address). -/
def c3Salons : List BeautySalon := [{ id := "b1", title := "T", state_name := "Illinois" }]

/-- C4 fixture: one category. -/
def c4Categories : List Category := [{ id := "b", category := "B" }]

/-- C4 fixture: one salon listing the category twice. -/
def c4Salons : List BeautySalon := [{ id := "b1", title := "T", category_ids := "b,b" }]

/-- The candidate city name: third-from-last trimmed comma-segment. -/
def cityCand (salon : BeautySalon) : String :=
  (addressParts salon).getD ((addressParts salon).length - 3) ""

/-- The candidate state name: second-from-last trimmed comma-segment. -/
def stateCand (salon : BeautySalon) : String :=
  (addressParts salon).getD ((addressParts salon).length - 2) ""

/-- `salon.city_id = id; salon.city_name = city.city` (lines 205–206). -/
def withCity (salon : BeautySalon) (city : City) : BeautySalon :=
  { salon with city_id := city.id, city_name := city.city }

/-- `salon.state_id = id; salon.state_name = state.state` (lines 214–215). -/
def withState (salon : BeautySalon) (st : State) : BeautySalon :=
  { salon with state_id := st.id, state_name := st.state }

/-- C5 witness fixture states. -/
def c5States : List State := [{ id := "s1", state := "Illinois" }]

/-- C5 witness fixture city. -/
def c5City : City := { id := "c1", city := "X", state_id := "s1" }

/-- C1 witness fixture cities. -/
def c1wCities : List City := [{ id := "c1", city := "Springfield", state_id := "s1" }]

/-- C1 witness fixture states. -/
def c1wStates : List State := [{ id := "s1", state := "Illinois" }]

/-- C1 witness fixture salon (address only). -/
def c1wSalon : BeautySalon :=
  { id := "b1", title := "T", address := "123 Main St, Springfield, Illinois, USA" }

/-- C7 counterexample fixture: a state with empty name. -/
def c7States : List State := [{ id := "s1", state := "" }]

/-- C7 counterexample fixture: a salon with all optional fields empty. -/
def c7Salons : List BeautySalon := [{ id := "b1", title := "T" }]

/-- Claim C7's membership predicate exactly as stated (no truthiness
guards): state_id equality, case-insensitive state_name equality, or
city_id membership in the state's city_ids. -/
def claimedStateSalonPred (state : State) (cityIds : List String)
    (salon : ProcessedSalon) : Bool :=
  salon.state_id == state.id || lowerStr salon.state_name == lowerStr state.state ||
    cityIds.contains salon.city_id

/-- C7 witness fixture state. -/
def c7wState : State := { id := "s1", state := "Illinois" }

/-- C7 witness fixture projected salons. -/
def c7wSalons : List ProcessedSalon :=
  [processSalon (fun s => s) { id := "b1", title := "T", state_id := "s1" }]

/-- C10 witness fixture salon. -/
def c10Salon : BeautySalon := { id := "b1", title := "T", category_ids := "a, b" }

/-- C10 witness fixture category. -/
def c10Cat : Category := { id := "b", category := "B" }

/-! ## Theorems -/


/-! ### Lemmas about the map model -/
theorem getKey_cons (kf : α → String) (x : α) (xs : List α) (k : String) :
    getKey kf (x :: xs) k =
      match getKey kf xs k with
      | some y => some y
      | none => if kf x == k then some x else none := rfl

theorem getKey_mem_key (kf : α → String) :
    ∀ (l : List α) (k : String) (y : α), getKey kf l k = some y → y ∈ l ∧ kf y = k
  | [], _, _, h => by simp [getKey] at h
  | x :: xs, k, y, h => by
    rw [getKey_cons] at h
    cases hxs : getKey kf xs k with
    | some z =>
      rw [hxs] at h
      obtain ⟨hm, hk⟩ := getKey_mem_key kf xs k y (hxs.trans h)
      exact ⟨List.mem_cons_of_mem x hm, hk⟩
    | none =>
      rw [hxs] at h
      by_cases hx : kf x == k
      · simp only [hx, if_true, Option.some.injEq] at h
        subst h
        exact ⟨List.mem_cons_self x xs, by simpa using hx⟩
      · simp [hx] at h

theorem getKey_eq_none_of_any_false (kf : α → String) :
    ∀ (l : List α) (k : String), l.any (fun x => kf x == k) = false → getKey kf l k = none
  | [], _, _ => rfl
  | x :: xs, k, h => by
    simp only [List.any_cons, Bool.or_eq_false_iff] at h
    rw [getKey_cons, getKey_eq_none_of_any_false kf xs k h.2]
    simp [h.1]

theorem any_true_of_getKey (kf : α → String) (l : List α) (k : String) (y : α)
    (h : getKey kf l k = some y) : l.any (fun x => kf x == k) = true := by
  by_contra hny
  rw [getKey_eq_none_of_any_false kf l k (Bool.eq_false_iff.mpr hny)] at h
  exact Option.noConfusion h

theorem exists_getKey_of_any (kf : α → String) :
    ∀ (l : List α) (k : String), l.any (fun x => kf x == k) = true →
      ∃ y, getKey kf l k = some y
  | [], _, h => by simp at h
  | x :: xs, k, h => by
    rw [getKey_cons]
    cases hxs : getKey kf xs k with
    | some z => exact ⟨z, rfl⟩
    | none =>
      simp only [List.any_cons, Bool.or_eq_true] at h
      rcases h with hx | hxs2
      · exact ⟨x, by simp [hx]⟩
      · obtain ⟨y, hy⟩ := exists_getKey_of_any kf xs k hxs2
        rw [hy] at hxs
        exact Option.noConfusion hxs

theorem getKey_updLast_self (kf : α → String) (f : α → α) (hkf : ∀ x, kf (f x) = kf x)
    (k : String) :
    ∀ l : List α,
      getKey kf (updLast (fun x => kf x == k) f l) k = (getKey kf l k).map f
  | [] => rfl
  | x :: xs => by
    have ih := getKey_updLast_self kf f hkf k xs
    by_cases hany : xs.any (fun y => kf y == k) = true
    · obtain ⟨y, hy⟩ := exists_getKey_of_any kf xs k hany
      rw [updLast, if_pos hany, getKey_cons, ih, hy, getKey_cons, hy]
      rfl
    · have hnone : getKey kf xs k = none :=
        getKey_eq_none_of_any_false kf xs k (Bool.eq_false_iff.mpr hany)
      rw [updLast, if_neg hany]
      by_cases hx : (kf x == k) = true
      · rw [if_pos hx, getKey_cons, hnone, getKey_cons, hnone, if_pos hx]
        simp [hkf, hx]
      · rw [if_neg hx]
        simp only [getKey_cons, hnone, if_neg hx]
        rfl

theorem getKey_updLast_other (kf : α → String) (f : α → α) (hkf : ∀ x, kf (f x) = kf x)
    (k k' : String) (hne : k' ≠ k) :
    ∀ l : List α,
      getKey kf (updLast (fun x => kf x == k') f l) k = getKey kf l k
  | [] => rfl
  | x :: xs => by
    have ih := getKey_updLast_other kf f hkf k k' hne xs
    by_cases hany : xs.any (fun y => kf y == k') = true
    · rw [updLast, if_pos hany, getKey_cons, ih, getKey_cons]
    · rw [updLast, if_neg hany]
      by_cases hx : (kf x == k') = true
      · rw [if_pos hx, getKey_cons, getKey_cons]
        have hxk : kf x = k' := by simpa using hx
        have h1 : (kf (f x) == k) = false := by
          simp [hkf, hxk, hne]
        have h2 : (kf x == k) = false := by
          simp [hxk, hne]
        simp [h1, h2]
      · rw [if_neg hx]

/-- Under unique keys, the map lookup returns the unique element carrying
the key. -/
theorem getKey_of_nodup (kf : α → String) :
    ∀ (l : List α) (x : α), (l.map kf).Nodup → x ∈ l → getKey kf l (kf x) = some x
  | [], x, _, hm => absurd hm (List.not_mem_nil x)
  | y :: ys, x, hnd, hm => by
    rw [List.map_cons, List.nodup_cons] at hnd
    rcases List.mem_cons.mp hm with hx | hx
    · subst hx
      have hany : ys.any (fun z => kf z == kf x) = false := by
        apply Bool.eq_false_iff.mpr
        intro hcon
        rw [List.any_eq_true] at hcon
        obtain ⟨z, hz, hzk⟩ := hcon
        have hzx : kf z = kf x := by simpa using hzk
        exact hnd.1 (hzx ▸ List.mem_map_of_mem kf hz)
      rw [getKey_cons, getKey_eq_none_of_any_false kf ys (kf x) hany]
      simp
    · rw [getKey_cons, getKey_of_nodup kf ys x hnd.2 hx]


/-! ### The generic counting fold -/
theorem iterN_succ_out (f : α → α) : ∀ (n : Nat) (c : α),
    iterN f (n + 1) c = f (iterN f n c)
  | 0, _ => rfl
  | n + 1, c => by
    rw [iterN, iterN_succ_out f n (f c)]
    rfl

theorem iterN_val_add (g : α → Nat) (f : α → α) (d : Nat)
    (hg : ∀ x, g (f x) = g x + d) :
    ∀ (n : Nat) (c : α), g (iterN f n c) = g c + n * d
  | 0, c => by simp [iterN]
  | n + 1, c => by
    rw [iterN_succ_out, hg, iterN_val_add g f d hg n c]
    ring

theorem stepKeyed_some (kf : α → String) (f : α → α) (keyOf : ι → Option String)
    (acc : List α) (i : ι) (k : String) (h : keyOf i = some k) :
    stepKeyed kf f keyOf acc i =
      if hasKey kf acc k then updLast (fun x => kf x == k) f acc else acc := by
  rw [stepKeyed, h]

theorem stepKeyed_none (kf : α → String) (f : α → α) (keyOf : ι → Option String)
    (acc : List α) (i : ι) (h : keyOf i = none) :
    stepKeyed kf f keyOf acc i = acc := by
  rw [stepKeyed, h]

theorem getKey_foldKeyed (kf : α → String) (f : α → α) (hkf : ∀ x, kf (f x) = kf x)
    (keyOf : ι → Option String) (k : String) :
    ∀ (items : List ι) (l : List α) (c : α), getKey kf l k = some c →
      getKey kf (foldKeyed kf f keyOf items l) k =
        some (iterN f (items.countP (fun i => keyOf i == some k)) c)
  | [], l, c, h => by simpa [foldKeyed, iterN] using h
  | i :: items, l, c, h => by
    rw [foldKeyed, List.foldl_cons, ← foldKeyed]
    cases hki : keyOf i with
    | none =>
      rw [stepKeyed_none kf f keyOf l i hki,
        getKey_foldKeyed kf f hkf keyOf k items l c h]
      simp [List.countP_cons, hki]
    | some k' =>
      rw [stepKeyed_some kf f keyOf l i k' hki]
      by_cases hkk : k' = k
      · subst hkk
        have hhas : hasKey kf l k' = true := any_true_of_getKey kf l k' c h
        have hupd : getKey kf (updLast (fun x => kf x == k') f l) k' = some (f c) := by
          rw [getKey_updLast_self kf f hkf k' l, h]
          rfl
        rw [if_pos hhas,
          getKey_foldKeyed kf f hkf keyOf k' items _ (f c) hupd]
        have hcnt : (keyOf i == some k') = true := by simp [hki]
        simp [List.countP_cons, hcnt, iterN]
      · have hcnt : (keyOf i == some k) = false := by simp [hki, hkk]
        by_cases hhas : hasKey kf l k' = true
        · have hupd : getKey kf (updLast (fun x => kf x == k') f l) k = some c := by
            rw [getKey_updLast_other kf f hkf k k' hkk l, h]
          rw [if_pos hhas, getKey_foldKeyed kf f hkf keyOf k items _ c hupd]
          simp [List.countP_cons, hcnt]
        · rw [if_neg hhas, getKey_foldKeyed kf f hkf keyOf k items l c h]
          simp [List.countP_cons, hcnt]

theorem updLast_map_invariant (p : α → Bool) (f : α → α) (g : α → β)
    (hg : ∀ x, g (f x) = g x) : ∀ l : List α, (updLast p f l).map g = l.map g
  | [] => rfl
  | x :: xs => by
    rw [updLast]
    by_cases hany : xs.any p = true
    · rw [if_pos hany, List.map_cons, List.map_cons,
        updLast_map_invariant p f g hg xs]
    · rw [if_neg hany]
      by_cases hx : p x = true
      · rw [if_pos hx, List.map_cons, List.map_cons, hg]
      · rw [if_neg hx]

theorem foldKeyed_map_invariant (kf : α → String) (f : α → α) (g : α → β)
    (hg : ∀ x, g (f x) = g x) (keyOf : ι → Option String) :
    ∀ (items : List ι) (l : List α), (foldKeyed kf f keyOf items l).map g = l.map g
  | [], _ => rfl
  | i :: items, l => by
    rw [foldKeyed, List.foldl_cons, ← foldKeyed,
      foldKeyed_map_invariant kf f g hg keyOf items]
    cases hki : keyOf i with
    | none => rw [stepKeyed_none _ _ _ _ _ hki]
    | some k =>
      rw [stepKeyed_some _ _ _ _ _ k hki]
      by_cases hhas : hasKey kf l k = true
      · rw [if_pos hhas, updLast_map_invariant _ _ g hg]
      · rw [if_neg hhas]

theorem countP_ext (p q : α → Bool) (h : ∀ a, p a = q a) :
    ∀ l : List α, l.countP p = l.countP q
  | [] => rfl
  | x :: xs => by
    rw [List.countP_cons, List.countP_cons, h x, countP_ext p q h xs]

theorem countStepCities_eq (cities : List City) (s : BeautySalon) :
    countStepCities cities s =
      stepKeyed City.id incCityF cityKeyOf cities s := by
  cases h : s.city_id != "" with
  | true =>
    rw [stepKeyed_some _ _ cityKeyOf cities s s.city_id (by rw [cityKeyOf, if_pos h]),
      countStepCities]
    simp only [h, Bool.true_and]
    rfl
  | false =>
    rw [stepKeyed_none _ _ cityKeyOf cities s (by rw [cityKeyOf, if_neg (by simp [h])]),
      countStepCities]
    simp [h]

theorem countStepStates_eq (states : List State) (s : BeautySalon) :
    countStepStates states s =
      stepKeyed State.id incStateSalonF stateKeyOf states s := by
  cases h : s.state_id != "" with
  | true =>
    rw [stepKeyed_some _ _ stateKeyOf states s s.state_id (by rw [stateKeyOf, if_pos h]),
      countStepStates]
    simp only [h, Bool.true_and]
    rfl
  | false =>
    rw [stepKeyed_none _ _ stateKeyOf states s (by rw [stateKeyOf, if_neg (by simp [h])]),
      countStepStates]
    simp [h]

theorem countStepCategories_eq (categories : List Category) (s : BeautySalon) :
    countStepCategories categories s =
      foldKeyed Category.id incCatF (fun seg => some seg) (catSegs s) categories := by
  cases h : s.category_ids != "" with
  | true =>
    rw [countStepCategories, if_pos h, catSegs, if_pos h]
    rfl
  | false =>
    rw [countStepCategories, if_neg (by simp [h]), catSegs, if_neg (by simp [h])]
    rfl

theorem foldKeyed_cons (kf : α → String) (f : α → α) (keyOf : ι → Option String)
    (i : ι) (items : List ι) (l : List α) :
    foldKeyed kf f keyOf (i :: items) l =
      foldKeyed kf f keyOf items (stepKeyed kf f keyOf l i) := rfl

theorem foldKeyed_append (kf : α → String) (f : α → α) (keyOf : ι → Option String)
    (a b : List ι) (l : List α) :
    foldKeyed kf f keyOf (a ++ b) l =
      foldKeyed kf f keyOf b (foldKeyed kf f keyOf a l) := by
  rw [foldKeyed, List.foldl_append]
  rfl

theorem countSalons_cons (s : BeautySalon) (rest : List BeautySalon) (t : Tables) :
    countSalons (s :: rest) t = countSalons rest (countStep t s) := rfl

theorem countSalons_cities_eq (salons : List BeautySalon) (t : Tables) :
    (countSalons salons t).cities =
      foldKeyed City.id incCityF cityKeyOf salons t.cities := by
  induction salons generalizing t with
  | nil => rfl
  | cons s rest ih =>
    rw [countSalons_cons, ih, foldKeyed_cons]
    rw [show (countStep t s).cities = countStepCities t.cities s from rfl,
      countStepCities_eq]

theorem countSalons_states_eq (salons : List BeautySalon) (t : Tables) :
    (countSalons salons t).states =
      foldKeyed State.id incStateSalonF stateKeyOf salons t.states := by
  induction salons generalizing t with
  | nil => rfl
  | cons s rest ih =>
    rw [countSalons_cons, ih, foldKeyed_cons]
    rw [show (countStep t s).states = countStepStates t.states s from rfl,
      countStepStates_eq]

theorem countSalons_categories_eq (salons : List BeautySalon) (t : Tables) :
    (countSalons salons t).categories =
      foldKeyed Category.id incCatF (fun seg => some seg) ((salons.map catSegs).flatten)
        t.categories := by
  induction salons generalizing t with
  | nil => rfl
  | cons s rest ih =>
    rw [countSalons_cons, ih, List.map_cons, List.flatten_cons, foldKeyed_append]
    rw [show (countStep t s).categories = countStepCategories t.categories s from rfl,
      countStepCategories_eq]

theorem countCityStep_eq (states : List State) (c : City) :
    countCityStep states c =
      stepKeyed State.id incStateCityF cityStateKeyOf states c := by
  cases h : c.state_id != "" with
  | true =>
    rw [stepKeyed_some _ _ cityStateKeyOf states c c.state_id
      (by rw [cityStateKeyOf, if_pos h]), countCityStep]
    simp only [h, Bool.true_and]
    rfl
  | false =>
    rw [stepKeyed_none _ _ cityStateKeyOf states c
      (by rw [cityStateKeyOf, if_neg (by simp [h])]), countCityStep]
    simp [h]

theorem countCitiesPerState_cons (c : City) (rest : List City) (states : List State) :
    countCitiesPerState (c :: rest) states =
      countCitiesPerState rest (countCityStep states c) := rfl

theorem countCitiesPerState_eq (cities : List City) (states : List State) :
    countCitiesPerState cities states =
      foldKeyed State.id incStateCityF cityStateKeyOf cities states := by
  induction cities generalizing states with
  | nil => rfl
  | cons c rest ih =>
    rw [countCitiesPerState_cons, ih, foldKeyed_cons, countCityStep_eq]


/-! ### Count conversions and aggregation count theorems -/
theorem optKey_beq (a k : String) :
    ((if a != "" then some a else none) == some k) = (a != "" && a == k) := by
  cases h : a != "" with
  | true => rfl
  | false => rfl

theorem countP_flatten_sum (p : α → Bool) :
    ∀ L : List (List α), L.flatten.countP p = (L.map (fun l => l.countP p)).sum
  | [] => rfl
  | l :: L => by
    rw [List.flatten_cons, List.countP_append, List.map_cons, List.sum_cons,
      countP_flatten_sum p L]

theorem countP_of_map_eq (g : α → β) (p : β → Bool) (l l' : List α)
    (h : l.map g = l'.map g) :
    l.countP (fun x => p (g x)) = l'.countP (fun x => p (g x)) := by
  have h1 : (l.map g).countP p = (l'.map g).countP p := by rw [h]
  simpa [List.countP_map, Function.comp] using h1

theorem catSegs_sum (p : String → Bool) :
    ∀ salons : List BeautySalon,
      ((salons.map catSegs).map (fun l => l.countP p)).sum =
        (salons.map (fun s =>
          if s.category_ids != "" then (jsSplitComma s.category_ids).countP p else 0)).sum
  | [] => rfl
  | s :: rest => by
    rw [List.map_cons, List.map_cons, List.sum_cons, List.map_cons, List.sum_cons,
      catSegs_sum p rest]
    congr 1
    rw [catSegs]
    cases h : s.category_ids != "" with
    | true => rfl
    | false => rfl

theorem cities_salon_count (salons : List BeautySalon) (t : Tables) (k : String) (c : City)
    (hc : getKey City.id t.cities k = some c) :
    (getKey City.id (countSalons salons t).cities k).map City.salon_count =
      some (c.salon_count + salons.countP (fun s => s.city_id != "" && s.city_id == k)) := by
  rw [countSalons_cities_eq]
  rw [getKey_foldKeyed City.id incCityF (fun x => rfl) cityKeyOf k salons t.cities c hc]
  rw [Option.map_some']
  rw [iterN_val_add City.salon_count incCityF 1 (fun x => rfl)]
  rw [countP_ext _ (fun s => s.city_id != "" && s.city_id == k)
    (fun s => by rw [cityKeyOf]; exact optKey_beq s.city_id k)]
  simp

theorem categories_salon_count (salons : List BeautySalon) (t : Tables) (k : String)
    (cat : Category) (hcat : getKey Category.id t.categories k = some cat) :
    (getKey Category.id (countSalons salons t).categories k).map Category.salon_count =
      some (cat.salon_count + (salons.map (fun s =>
        if s.category_ids != "" then (jsSplitComma s.category_ids).countP (fun seg => seg == k)
        else 0)).sum) := by
  rw [countSalons_categories_eq]
  rw [getKey_foldKeyed Category.id incCatF (fun x => rfl) (fun seg => some seg) k
    ((salons.map catSegs).flatten) t.categories cat hcat]
  rw [Option.map_some']
  rw [iterN_val_add Category.salon_count incCatF 1 (fun x => rfl)]
  rw [countP_ext (fun seg : String => some seg == some k) (fun seg => seg == k)
    (fun seg => rfl)]
  rw [countP_flatten_sum, catSegs_sum]
  simp

theorem states_counts (salons : List BeautySalon) (t : Tables) (k : String) (st : State)
    (hst : getKey State.id t.states k = some st) :
    (getKey State.id
        (countCitiesPerState (countSalons salons t).cities (countSalons salons t).states)
        k).map State.salon_count =
      some (st.salon_count + salons.countP (fun s => s.state_id != "" && s.state_id == k))
    ∧ (getKey State.id
        (countCitiesPerState (countSalons salons t).cities (countSalons salons t).states)
        k).map State.city_count =
      some (st.city_count +
        t.cities.countP (fun cc => cc.state_id != "" && cc.state_id == k)) := by
  have h1 : getKey State.id (countSalons salons t).states k =
      some (iterN incStateSalonF (salons.countP (fun s => stateKeyOf s == some k)) st) := by
    rw [countSalons_states_eq]
    exact getKey_foldKeyed State.id incStateSalonF (fun x => rfl) stateKeyOf k salons
      t.states st hst
  have h2 : getKey State.id
      (countCitiesPerState (countSalons salons t).cities (countSalons salons t).states) k =
      some (iterN incStateCityF
        ((countSalons salons t).cities.countP (fun cc => cityStateKeyOf cc == some k))
        (iterN incStateSalonF (salons.countP (fun s => stateKeyOf s == some k)) st)) := by
    rw [countCitiesPerState_eq]
    exact getKey_foldKeyed State.id incStateCityF (fun x => rfl) cityStateKeyOf k
      (countSalons salons t).cities _ _ h1
  have hcount : (countSalons salons t).cities.countP (fun cc => cityStateKeyOf cc == some k) =
      t.cities.countP (fun cc => cc.state_id != "" && cc.state_id == k) := by
    rw [countP_ext _ (fun cc => cc.state_id != "" && cc.state_id == k)
      (fun cc => by rw [cityStateKeyOf]; exact optKey_beq cc.state_id k)]
    have hmap : (countSalons salons t).cities.map City.state_id =
        t.cities.map City.state_id := by
      rw [countSalons_cities_eq]
      exact foldKeyed_map_invariant City.id incCityF City.state_id (fun x => rfl) cityKeyOf
        salons t.cities
    exact countP_of_map_eq City.state_id (fun sid => sid != "" && sid == k) _ _ hmap
  constructor
  · rw [h2, Option.map_some']
    rw [iterN_val_add State.salon_count incStateCityF 0 (fun x => rfl)]
    rw [iterN_val_add State.salon_count incStateSalonF 1 (fun x => rfl)]
    rw [countP_ext _ (fun s => s.state_id != "" && s.state_id == k)
      (fun s => by rw [stateKeyOf]; exact optKey_beq s.state_id k)]
    simp
  · rw [h2, Option.map_some']
    rw [iterN_val_add State.city_count incStateCityF 1 (fun x => rfl)]
    rw [iterN_val_add State.city_count incStateSalonF 0 (fun x => rfl)]
    rw [hcount]
    simp


/-! ### Claim theorems: C2, C3, C4 -/
/-- **C2, counterexample.** The claim counts, for each City of the index,
the salons whose city_id equals that City's id (and is present in the
index).  For the City whose id is the empty string, the code's truthiness
guard `salon.city_id && ...` skips every salon with empty city_id, so the
aggregated salon_count is 0 while the claim's count is 1. -/
theorem claim_C2_counterexample :
    (getKey City.id (countSalons c2cexSalons ⟨c2cexCities, [], []⟩).cities "").map
        City.salon_count = some 0
    ∧ c2cexSalons.countP
        (fun s => s.city_id == "" && hasKey City.id c2cexCities s.city_id) = 1
    ∧ (getKey City.id (countSalons c2cexSalons ⟨c2cexCities, [], []⟩).cities "").map
        City.salon_count ≠
      some (c2cexSalons.countP
        (fun s => s.city_id == "" && hasKey City.id c2cexCities s.city_id)) := by
  refine ⟨by decide, by decide, by decide⟩

/-- **C2, amended.** After the aggregation pass over all salons, for every
City/State/Category present in its index (as loaded, counts zero): the
City's salon_count equals the number of salons whose city_id is non-empty
and equals the City's id; the State's salon_count likewise over state_id;
the Category's salon_count equals the number of occurrences of the
Category's id among the comma-split category_ids of the salons whose
category_ids field is non-empty (duplicates counted multiply); and the
State's city_count equals the number of cities whose state_id is non-empty
and equals the State's id. -/
theorem claim_C2_amended (salons : List BeautySalon) (cities : List City)
    (states : List State) (categories : List Category) (kc ks kg : String)
    (c : City) (st : State) (cat : Category)
    (hc : getKey City.id cities kc = some c) (hc0 : c.salon_count = 0)
    (hst : getKey State.id states ks = some st) (hst0 : st.salon_count = 0)
    (hst1 : st.city_count = 0)
    (hcat : getKey Category.id categories kg = some cat) (hcat0 : cat.salon_count = 0) :
    (getKey City.id (countSalons salons ⟨cities, states, categories⟩).cities kc).map
        City.salon_count =
      some (salons.countP (fun s => s.city_id != "" && s.city_id == kc))
    ∧ (getKey State.id
        (countCitiesPerState (countSalons salons ⟨cities, states, categories⟩).cities
          (countSalons salons ⟨cities, states, categories⟩).states) ks).map
        State.salon_count =
      some (salons.countP (fun s => s.state_id != "" && s.state_id == ks))
    ∧ (getKey Category.id
        (countSalons salons ⟨cities, states, categories⟩).categories kg).map
        Category.salon_count =
      some ((salons.map (fun s =>
        if s.category_ids != "" then
          (jsSplitComma s.category_ids).countP (fun seg => seg == kg)
        else 0)).sum)
    ∧ (getKey State.id
        (countCitiesPerState (countSalons salons ⟨cities, states, categories⟩).cities
          (countSalons salons ⟨cities, states, categories⟩).states) ks).map
        State.city_count =
      some (cities.countP (fun cc => cc.state_id != "" && cc.state_id == ks)) := by
  refine ⟨?_, ?_, ?_, ?_⟩
  · have h := cities_salon_count salons ⟨cities, states, categories⟩ kc c hc
    rw [hc0] at h
    simpa using h
  · have h := (states_counts salons ⟨cities, states, categories⟩ ks st hst).1
    rw [hst0] at h
    simpa using h
  · have h := categories_salon_count salons ⟨cities, states, categories⟩ kg cat hcat
    rw [hcat0] at h
    simpa using h
  · have h := (states_counts salons ⟨cities, states, categories⟩ ks st hst).2
    rw [hst1] at h
    simpa using h

/-- Witness for the amended C2 at a concrete one-row fixture. -/
theorem claim_C2_witness :
    getKey City.id c2wCities "c1" = some c2wCity ∧ c2wCity.salon_count = 0
    ∧ getKey State.id c2wStates "s1" = some c2wState ∧ c2wState.salon_count = 0
    ∧ c2wState.city_count = 0
    ∧ getKey Category.id c2wCategories "g1" = some c2wCat ∧ c2wCat.salon_count = 0
    ∧ ((getKey City.id (countSalons c2wSalons ⟨c2wCities, c2wStates, c2wCategories⟩).cities
          "c1").map City.salon_count =
        some (c2wSalons.countP (fun s => s.city_id != "" && s.city_id == "c1"))
      ∧ (getKey State.id
          (countCitiesPerState
            (countSalons c2wSalons ⟨c2wCities, c2wStates, c2wCategories⟩).cities
            (countSalons c2wSalons ⟨c2wCities, c2wStates, c2wCategories⟩).states) "s1").map
          State.salon_count =
        some (c2wSalons.countP (fun s => s.state_id != "" && s.state_id == "s1"))
      ∧ (getKey Category.id
          (countSalons c2wSalons ⟨c2wCities, c2wStates, c2wCategories⟩).categories
          "g1").map Category.salon_count =
        some ((c2wSalons.map (fun s =>
          if s.category_ids != "" then
            (jsSplitComma s.category_ids).countP (fun seg => seg == "g1")
          else 0)).sum)
      ∧ (getKey State.id
          (countCitiesPerState
            (countSalons c2wSalons ⟨c2wCities, c2wStates, c2wCategories⟩).cities
            (countSalons c2wSalons ⟨c2wCities, c2wStates, c2wCategories⟩).states) "s1").map
          State.city_count =
        some (c2wCities.countP (fun cc => cc.state_id != "" && cc.state_id == "s1"))) :=
  ⟨by decide, by decide, by decide, by decide, by decide, by decide, by decide,
    claim_C2_amended c2wSalons c2wCities c2wStates c2wCategories "c1" "s1" "g1"
      c2wCity c2wState c2wCat (by decide) (by decide) (by decide) (by decide)
      (by decide) (by decide) (by decide)⟩

/-- **C3.** A State's aggregated salon_count can differ from the length of
its projected salon_ids: the fixture salon carries only a state_name, so
aggregation (strict id equality with truthiness guard) counts 0 while
projection (case-insensitive state_name fallback) includes it, giving
salon_ids of length 1. -/
theorem claim_C3 :
    (countCitiesPerState
        (countSalons (resolveOnce c3States [] c3Salons).2
          ⟨(resolveOnce c3States [] c3Salons).1, c3States, []⟩).cities
        (countSalons (resolveOnce c3States [] c3Salons).2
          ⟨(resolveOnce c3States [] c3Salons).1, c3States, []⟩).states).map
      State.salon_count = [0]
    ∧ (processStates (fun s => s)
        (countCitiesPerState
          (countSalons (resolveOnce c3States [] c3Salons).2
            ⟨(resolveOnce c3States [] c3Salons).1, c3States, []⟩).cities
          (countSalons (resolveOnce c3States [] c3Salons).2
            ⟨(resolveOnce c3States [] c3Salons).1, c3States, []⟩).states)
        (processCities (fun s => s)
          (countSalons (resolveOnce c3States [] c3Salons).2
            ⟨(resolveOnce c3States [] c3Salons).1, c3States, []⟩).cities
          ((resolveOnce c3States [] c3Salons).2.map (processSalon (fun s => s))))
        ((resolveOnce c3States [] c3Salons).2.map (processSalon (fun s => s)))).map
      (fun ps => ps.salon_ids.length) = [1]
    ∧ ([0] : List Nat) ≠ [1] := by
  refine ⟨by decide, by decide, by decide⟩

/-- **C4, counterexample.** The projected Category record for the fixture
(category "b", one salon listing "b,b") has salon_ids of length 1, while
the aggregated salon_count is 2 (duplicates counted multiply): the claim's
equation "salon_count = salon_ids.length" fails (and the projected records
carry no salon_count field at all). -/
theorem claim_C4_counterexample :
    (countSalons c4Salons ⟨[], [], c4Categories⟩).categories.map Category.salon_count = [2]
    ∧ (processCategories (fun s => s) (countSalons c4Salons ⟨[], [], c4Categories⟩).categories
        (c4Salons.map (processSalon (fun s => s)))).map
      (fun pc => pc.salon_ids.length) = [1]
    ∧ (countSalons c4Salons ⟨[], [], c4Categories⟩).categories.map Category.salon_count ≠
      (processCategories (fun s => s) (countSalons c4Salons ⟨[], [], c4Categories⟩).categories
        (c4Salons.map (processSalon (fun s => s)))).map
      (fun pc => pc.salon_ids.length) := by
  refine ⟨by decide, by decide, by decide⟩

/-- **C4, amended.** The projected City/State/Category view-model records
carry no salon_count field; what holds is that each record's
salon_ids.length equals the number of projected salons satisfying that
record's membership predicate (the aggregated salon_count on the raw
entity can differ, as the counterexample shows). -/
theorem claim_C4_amended (slugify : String → String) (city : City) (state : State)
    (category : Category) (pCities : List ProcessedCity) (pSalons : List ProcessedSalon) :
    (processCity slugify pSalons city).salon_ids.length =
      pSalons.countP (citySalonFilter city)
    ∧ (processState slugify pCities pSalons state).salon_ids.length =
      pSalons.countP (stateSalonFilter state
        ((pCities.filter (fun c => c.state_id == state.id)).map (fun c => c.id)))
    ∧ (processCategory slugify pSalons category).salon_ids.length =
      pSalons.countP (fun s => s.category_ids.contains category.id) := by
  refine ⟨?_, ?_, ?_⟩ <;>
    simp [processCity, processState, processCategory, List.countP_eq_length_filter]


/-! ### Unfoldings and idempotence of the resolution phases -/
theorem inferSalon_eq (cities : List City) (states : List State) (salon : BeautySalon) :
    inferSalon cities states salon =
      if salon.address != "" && salon.city_id == "" && salon.state_id == "" then
        if 3 ≤ (addressParts salon).length then
          match findStateByName states (stateCand salon) with
          | some st =>
            withState
              (match findCityByName cities (cityCand salon) with
               | some city => withCity salon city
               | none => salon) st
          | none =>
            match findCityByName cities (cityCand salon) with
            | some city => withCity salon city
            | none => salon
        else salon
      else salon := rfl

theorem backfillCity_idem (states : List State) (city : City) :
    backfillCity states (backfillCity states city) = backfillCity states city := by
  by_cases h : (city.state_id != "") = true
  · cases hg : getKey State.id states city.state_id with
    | some st =>
      have h1 : backfillCity states city = { city with state_name := st.state } := by
        rw [backfillCity, if_pos h, hg]
      rw [h1, backfillCity,
        show ({ city with state_name := st.state } : City).state_id = city.state_id from rfl,
        if_pos h, hg]
    | none =>
      have h1 : backfillCity states city = city := by
        rw [backfillCity, if_pos h, hg]
      rw [h1]
      exact h1
  · have h1 : backfillCity states city = city := by
      rw [backfillCity, if_neg h]
    rw [h1]
    exact h1

theorem map_idem (f : α → α) (hf : ∀ x, f (f x) = f x) :
    ∀ l : List α, (l.map f).map f = l.map f
  | [] => rfl
  | x :: xs => by
    simp only [List.map_cons]
    rw [hf, map_idem f hf xs]

theorem inferSalon_idem (cities : List City) (states : List State) (salon : BeautySalon) :
    inferSalon cities states (inferSalon cities states salon) =
      inferSalon cities states salon := by
  by_cases htrig : (salon.address != "" && salon.city_id == "" && salon.state_id == "") = true
  · have hparts : (salon.address != "") = true ∧ (salon.city_id == "") = true ∧
        (salon.state_id == "") = true := by
      simpa [Bool.and_eq_true, and_assoc] using htrig
    by_cases h3 : 3 ≤ (addressParts salon).length
    · cases hfs : findStateByName states (stateCand salon) with
      | some st =>
        cases hfc : findCityByName cities (cityCand salon) with
        | some city =>
          have h1 : inferSalon cities states salon = withState (withCity salon city) st := by
            rw [inferSalon_eq, if_pos htrig, if_pos h3, hfs, hfc]
          rw [h1]
          by_cases hcid : (city.id == "") = true
          · by_cases hsid : (st.id == "") = true
            · rw [inferSalon_eq,
                if_pos (show ((withState (withCity salon city) st).address != "" &&
                    (withState (withCity salon city) st).city_id == "" &&
                    (withState (withCity salon city) st).state_id == "") = true by
                  simp [withState, withCity, hparts.1, hcid, hsid]),
                if_pos (show 3 ≤ (addressParts (withState (withCity salon city) st)).length
                  from h3),
                show stateCand (withState (withCity salon city) st) = stateCand salon
                  from rfl,
                show cityCand (withState (withCity salon city) st) = cityCand salon
                  from rfl,
                hfs, hfc]
              rfl
            · rw [inferSalon_eq,
                if_neg (show ¬ ((withState (withCity salon city) st).address != "" &&
                    (withState (withCity salon city) st).city_id == "" &&
                    (withState (withCity salon city) st).state_id == "") = true by
                  simp [withState, withCity, hsid])]
          · rw [inferSalon_eq,
              if_neg (show ¬ ((withState (withCity salon city) st).address != "" &&
                  (withState (withCity salon city) st).city_id == "" &&
                  (withState (withCity salon city) st).state_id == "") = true by
                simp [withState, withCity, hcid])]
        | none =>
          have h1 : inferSalon cities states salon = withState salon st := by
            rw [inferSalon_eq, if_pos htrig, if_pos h3, hfs, hfc]
          rw [h1]
          by_cases hsid : (st.id == "") = true
          · rw [inferSalon_eq,
              if_pos (show ((withState salon st).address != "" &&
                  (withState salon st).city_id == "" &&
                  (withState salon st).state_id == "") = true by
                simp [withState, hparts.1, hparts.2.1, hsid]),
              if_pos (show 3 ≤ (addressParts (withState salon st)).length from h3),
              show stateCand (withState salon st) = stateCand salon from rfl,
              show cityCand (withState salon st) = cityCand salon from rfl,
              hfs, hfc]
            rfl
          · rw [inferSalon_eq,
              if_neg (show ¬ ((withState salon st).address != "" &&
                  (withState salon st).city_id == "" &&
                  (withState salon st).state_id == "") = true by
                simp [withState, hsid])]
      | none =>
        cases hfc : findCityByName cities (cityCand salon) with
        | some city =>
          have h1 : inferSalon cities states salon = withCity salon city := by
            rw [inferSalon_eq, if_pos htrig, if_pos h3, hfs, hfc]
          rw [h1]
          by_cases hcid : (city.id == "") = true
          · rw [inferSalon_eq,
              if_pos (show ((withCity salon city).address != "" &&
                  (withCity salon city).city_id == "" &&
                  (withCity salon city).state_id == "") = true by
                simp [withCity, hparts.1, hparts.2.2, hcid]),
              if_pos (show 3 ≤ (addressParts (withCity salon city)).length from h3),
              show stateCand (withCity salon city) = stateCand salon from rfl,
              show cityCand (withCity salon city) = cityCand salon from rfl,
              hfs, hfc]
            rfl
          · rw [inferSalon_eq,
              if_neg (show ¬ ((withCity salon city).address != "" &&
                  (withCity salon city).city_id == "" &&
                  (withCity salon city).state_id == "") = true by
                simp [withCity, hcid])]
        | none =>
          have h1 : inferSalon cities states salon = salon := by
            rw [inferSalon_eq, if_pos htrig, if_pos h3, hfs, hfc]
          rw [h1]
          exact h1
    · have h1 : inferSalon cities states salon = salon := by
        rw [inferSalon_eq, if_pos htrig, if_neg h3]
      rw [h1]
      exact h1
  · have h1 : inferSalon cities states salon = salon := by
      rw [inferSalon_eq, if_neg htrig]
    rw [h1]
    exact h1

theorem resolveOnce_eq (states : List State) (cities : List City)
    (salons : List BeautySalon) :
    resolveOnce states cities salons =
      (backfillCities states cities,
        inferSalons (backfillCities states cities) states salons) := rfl


/-! ### Claim theorems: C5, C6, C1 -/
/-- **C5.** After the state-name backfill, every City with a non-empty
state_id matched in the state index carries the matched State's name;
a City with empty or unmatched state_id is returned unchanged (state_name
stays as loaded), and the backfill is a total function — no error. -/
theorem claim_C5 (states : List State) (cities : List City) (city : City)
    (hnd : (states.map State.id).Nodup) :
    backfillCities states cities = cities.map (backfillCity states)
    ∧ (∀ st : State, st ∈ states → st.id = city.state_id → city.state_id ≠ "" →
        (backfillCity states city).state_name = st.state)
    ∧ ((city.state_id = "" ∨ ∀ st ∈ states, st.id ≠ city.state_id) →
        backfillCity states city = city) := by
  refine ⟨rfl, ?_, ?_⟩
  · intro st hmem hid hne
    have hget : getKey State.id states city.state_id = some st := by
      have h := getKey_of_nodup State.id states st hnd hmem
      rwa [hid] at h
    rw [backfillCity, if_pos (by simp [hne]), hget]
  · intro h
    rcases h with h | h
    · rw [backfillCity, if_neg (by simp [h])]
    · by_cases he : city.state_id = ""
      · rw [backfillCity, if_neg (by simp [he])]
      · have hget : getKey State.id states city.state_id = none := by
          apply getKey_eq_none_of_any_false
          rw [List.any_eq_false]
          intro st hmem
          simp [h st hmem]
        rw [backfillCity, if_pos (by simp [he]), hget]

/-- Witness for C5 at a one-state fixture. -/
theorem claim_C5_witness :
    (c5States.map State.id).Nodup
    ∧ (backfillCities c5States [c5City] = [c5City].map (backfillCity c5States)
      ∧ (∀ st : State, st ∈ c5States → st.id = c5City.state_id → c5City.state_id ≠ "" →
          (backfillCity c5States c5City).state_name = st.state)
      ∧ ((c5City.state_id = "" ∨ ∀ st ∈ c5States, st.id ≠ c5City.state_id) →
          backfillCity c5States c5City = c5City)) :=
  ⟨by decide, claim_C5 c5States [c5City] c5City (by decide)⟩

/-- **C6.** Resolution (state-name backfill followed by address-based link
inference) is idempotent: a second run on the already-annotated cities and
salons returns them unchanged. -/
theorem claim_C6 (states : List State) (cities : List City) (salons : List BeautySalon) :
    resolveOnce states (resolveOnce states cities salons).1
      (resolveOnce states cities salons).2 =
      resolveOnce states cities salons := by
  have hb : backfillCities states (backfillCities states cities) =
      backfillCities states cities :=
    map_idem (backfillCity states) (backfillCity_idem states) cities
  simp only [resolveOnce_eq]
  rw [hb]
  rw [show inferSalons (backfillCities states cities) states
      (inferSalons (backfillCities states cities) states salons) =
      ((salons.map (inferSalon (backfillCities states cities) states)).map
        (inferSalon (backfillCities states cities) states)) from rfl]
  rw [map_idem (inferSalon (backfillCities states cities) states)
    (inferSalon_idem (backfillCities states cities) states) salons]
  rfl

/-- **C1.** For a salon with a non-empty address and neither city_id nor
state_id set: with at least 3 trimmed comma-segments, the third-from-last
(`cityCand`) is looked up first-match in insertion order, case-insensitively,
in the city index (`findCityByName` over `entriesOf`), setting city_id and
city_name on a match and leaving them untouched otherwise; independently
the second-from-last (`stateCand`) is looked up in the state index; with
fewer than 3 segments the salon is unchanged. -/
theorem claim_C1 (cities : List City) (states : List State) (salon : BeautySalon)
    (ha : salon.address ≠ "") (hc : salon.city_id = "") (hs : salon.state_id = "") :
    (3 ≤ (addressParts salon).length →
      ((match findCityByName cities (cityCand salon) with
        | some city =>
          (inferSalon cities states salon).city_id = city.id ∧
          (inferSalon cities states salon).city_name = city.city
        | none =>
          (inferSalon cities states salon).city_id = "" ∧
          (inferSalon cities states salon).city_name = salon.city_name)
      ∧ (match findStateByName states (stateCand salon) with
        | some st =>
          (inferSalon cities states salon).state_id = st.id ∧
          (inferSalon cities states salon).state_name = st.state
        | none =>
          (inferSalon cities states salon).state_id = "" ∧
          (inferSalon cities states salon).state_name = salon.state_name)))
    ∧ ((addressParts salon).length < 3 → inferSalon cities states salon = salon) := by
  have htrig : (salon.address != "" && salon.city_id == "" && salon.state_id == "") = true := by
    simp [ha, hc, hs]
  constructor
  · intro h3
    cases hfs : findStateByName states (stateCand salon) with
    | some st =>
      cases hfc : findCityByName cities (cityCand salon) with
      | some city =>
        have h1 : inferSalon cities states salon = withState (withCity salon city) st := by
          rw [inferSalon_eq, if_pos htrig, if_pos h3, hfs, hfc]
        rw [h1]
        exact ⟨⟨rfl, rfl⟩, rfl, rfl⟩
      | none =>
        have h1 : inferSalon cities states salon = withState salon st := by
          rw [inferSalon_eq, if_pos htrig, if_pos h3, hfs, hfc]
        rw [h1]
        exact ⟨⟨hc, rfl⟩, rfl, rfl⟩
    | none =>
      cases hfc : findCityByName cities (cityCand salon) with
      | some city =>
        have h1 : inferSalon cities states salon = withCity salon city := by
          rw [inferSalon_eq, if_pos htrig, if_pos h3, hfs, hfc]
        rw [h1]
        exact ⟨⟨rfl, rfl⟩, hs, rfl⟩
      | none =>
        have h1 : inferSalon cities states salon = salon := by
          rw [inferSalon_eq, if_pos htrig, if_pos h3, hfs, hfc]
        rw [h1]
        exact ⟨⟨hc, rfl⟩, hs, rfl⟩
  · intro hlt
    have h3 : ¬ 3 ≤ (addressParts salon).length := by omega
    rw [inferSalon_eq, if_pos htrig, if_neg h3]

/-- Witness for C1 at the Springfield/Illinois fixture. -/
theorem claim_C1_witness :
    c1wSalon.address ≠ "" ∧ c1wSalon.city_id = "" ∧ c1wSalon.state_id = ""
    ∧ ((3 ≤ (addressParts c1wSalon).length →
        ((match findCityByName c1wCities (cityCand c1wSalon) with
          | some city =>
            (inferSalon c1wCities c1wStates c1wSalon).city_id = city.id ∧
            (inferSalon c1wCities c1wStates c1wSalon).city_name = city.city
          | none =>
            (inferSalon c1wCities c1wStates c1wSalon).city_id = "" ∧
            (inferSalon c1wCities c1wStates c1wSalon).city_name = c1wSalon.city_name)
        ∧ (match findStateByName c1wStates (stateCand c1wSalon) with
          | some st =>
            (inferSalon c1wCities c1wStates c1wSalon).state_id = st.id ∧
            (inferSalon c1wCities c1wStates c1wSalon).state_name = st.state
          | none =>
            (inferSalon c1wCities c1wStates c1wSalon).state_id = "" ∧
            (inferSalon c1wCities c1wStates c1wSalon).state_name = c1wSalon.state_name)))
      ∧ ((addressParts c1wSalon).length < 3 →
          inferSalon c1wCities c1wStates c1wSalon = c1wSalon)) :=
  ⟨by decide, by decide, by decide,
    claim_C1 c1wCities c1wStates c1wSalon (by decide) (by decide) (by decide)⟩


/-! ### Claim theorems: C7, C8, C10 -/
theorem stateSalonFilter_eq (state : State) (ci : List String) (s : ProcessedSalon) :
    stateSalonFilter state ci s =
      ((s.state_id != "" && s.state_id == state.id) ||
        (s.state_name != "" && lowerStr s.state_name == lowerStr state.state) ||
        (s.city_id != "" && ci.contains s.city_id)) := by
  rw [stateSalonFilter]
  cases h1 : (s.state_id != "" && s.state_id == state.id) with
  | true => rfl
  | false =>
    cases h2 : (s.state_name != "" && lowerStr s.state_name == lowerStr state.state) with
    | true => rfl
    | false =>
      cases h3 : (s.city_id != "" && ci.contains s.city_id) with
      | true => rfl
      | false => rfl

/-- **C7, counterexample.** For the state whose name is the empty string
and a salon with every optional field empty, the claim's predicate holds
(empty state_name case-insensitively equals the empty state name), yet the
code's truthiness guard `salon.state_name && ...` excludes the salon:
projected salon_ids is empty while the claim demands ["b1"]. -/
theorem claim_C7_counterexample :
    (processStates (fun s => s) c7States []
        (c7Salons.map (processSalon (fun s => s)))).map (fun ps => ps.salon_ids) = [[]]
    ∧ ((c7Salons.map (processSalon (fun s => s))).filter
        (claimedStateSalonPred { id := "s1", state := "" } [])).map (fun s => s.id) = ["b1"]
    ∧ (processStates (fun s => s) c7States []
        (c7Salons.map (processSalon (fun s => s)))).map (fun ps => ps.salon_ids) ≠
      [((c7Salons.map (processSalon (fun s => s))).filter
        (claimedStateSalonPred { id := "s1", state := "" } [])).map (fun s => s.id)] := by
  refine ⟨by decide, by decide, by decide⟩

/-- **C7, amended.** Every projected State record is `processState` of its
State; its city_ids are exactly the projected cities whose state_id equals
the State's id; its salon_ids are exactly the projected salons satisfying
one of the three guarded predicates — non-empty state_id equal to the
State's id, non-empty state_name case-insensitively equal to the State's
name, or non-empty city_id contained in the State's city_ids — each salon
at most once (given distinct projected salon ids). -/
theorem claim_C7_amended (slugify : String → String) (states : List State)
    (pCities : List ProcessedCity) (pSalons : List ProcessedSalon) (state : State)
    (hnd : (pSalons.map (fun s => s.id)).Nodup) :
    processStates slugify states pCities pSalons =
      states.map (processState slugify pCities pSalons)
    ∧ (processState slugify pCities pSalons state).city_ids =
      (pCities.filter (fun c => c.state_id == state.id)).map (fun c => c.id)
    ∧ (processState slugify pCities pSalons state).salon_ids =
      (pSalons.filter (fun s =>
        (s.state_id != "" && s.state_id == state.id) ||
        (s.state_name != "" && lowerStr s.state_name == lowerStr state.state) ||
        (s.city_id != "" &&
          ((pCities.filter (fun c => c.state_id == state.id)).map
            (fun c => c.id)).contains s.city_id))).map (fun s => s.id)
    ∧ (processState slugify pCities pSalons state).salon_ids.Nodup := by
  have hfilt : pSalons.filter (stateSalonFilter state
      ((pCities.filter (fun c => c.state_id == state.id)).map (fun c => c.id))) =
      pSalons.filter (fun s =>
        (s.state_id != "" && s.state_id == state.id) ||
        (s.state_name != "" && lowerStr s.state_name == lowerStr state.state) ||
        (s.city_id != "" &&
          ((pCities.filter (fun c => c.state_id == state.id)).map
            (fun c => c.id)).contains s.city_id)) := by
    apply List.filter_congr
    intro a _
    exact stateSalonFilter_eq state _ a
  refine ⟨rfl, rfl, ?_, ?_⟩
  · rw [show (processState slugify pCities pSalons state).salon_ids =
      (pSalons.filter (stateSalonFilter state
        ((pCities.filter (fun c => c.state_id == state.id)).map
          (fun c => c.id)))).map (fun s => s.id) from rfl, hfilt]
  · rw [show (processState slugify pCities pSalons state).salon_ids =
      (pSalons.filter (stateSalonFilter state
        ((pCities.filter (fun c => c.state_id == state.id)).map
          (fun c => c.id)))).map (fun s => s.id) from rfl]
    exact List.Nodup.sublist
      (List.Sublist.map (fun s => s.id) (List.filter_sublist pSalons)) hnd

/-- Witness for the amended C7 at a one-state fixture. -/
theorem claim_C7_amended_witness :
    (c7wSalons.map (fun s => s.id)).Nodup
    ∧ (processStates (fun s => s) [c7wState] [] c7wSalons =
        [c7wState].map (processState (fun s => s) [] c7wSalons)
      ∧ (processState (fun s => s) [] c7wSalons c7wState).city_ids =
        (([] : List ProcessedCity).filter (fun c => c.state_id == c7wState.id)).map
          (fun c => c.id)
      ∧ (processState (fun s => s) [] c7wSalons c7wState).salon_ids =
        (c7wSalons.filter (fun s =>
          (s.state_id != "" && s.state_id == c7wState.id) ||
          (s.state_name != "" && lowerStr s.state_name == lowerStr c7wState.state) ||
          (s.city_id != "" &&
            ((([] : List ProcessedCity).filter (fun c => c.state_id == c7wState.id)).map
              (fun c => c.id)).contains s.city_id))).map (fun s => s.id)
      ∧ (processState (fun s => s) [] c7wSalons c7wState).salon_ids.Nodup) :=
  ⟨by decide, claim_C7_amended (fun s => s) [c7wState] [] c7wSalons c7wState (by decide)⟩

theorem splitCommaList_ne_nil : ∀ l : List Char, splitCommaList l ≠ []
  | [] => by simp [splitCommaList]
  | c :: cs => by
    simp only [splitCommaList]
    cases h : splitCommaList cs with
    | nil => simp
    | cons g gs =>
      cases hc : c == ',' with
      | true => simp
      | false => simp

theorem jsSplitComma_ne_nil (s : String) : jsSplitComma s ≠ [] := by
  rw [jsSplitComma]
  intro h
  exact splitCommaList_ne_nil s.data (List.map_eq_nil_iff.mp h)

/-- **C8.** Every multi-value field of the salon projection is split by
`splitMulti`: an empty field yields the empty sequence (never a
one-element sequence holding the empty string), and `"a,b,c"` yields
`["a","b","c"]`. -/
theorem claim_C8 (slugify : String → String) (s : BeautySalon) (x : String) :
    (processSalon slugify s).category_ids = splitMulti s.category_ids
    ∧ (processSalon slugify s).detail_keys = splitMulti s.detail_keys
    ∧ (processSalon slugify s).detail_values = splitMulti s.detail_values
    ∧ (processSalon slugify s).amenity_ids = splitMulti s.amenity_ids
    ∧ (processSalon slugify s).payment_ids = splitMulti s.payment_ids
    ∧ (processSalon slugify s).images = splitMulti s.images
    ∧ (splitMulti x = [] ↔ x = "")
    ∧ splitMulti "" = []
    ∧ splitMulti "a,b,c" = ["a", "b", "c"] := by
  refine ⟨rfl, rfl, rfl, rfl, rfl, rfl, ?_, by decide, by decide⟩
  constructor
  · intro h
    by_contra hne
    have hx : splitMulti x = jsSplitComma x := by
      rw [splitMulti, if_pos (by simp [hne])]
    rw [hx] at h
    exact jsSplitComma_ne_nil x h
  · intro h
    rw [h]
    rfl

/-- **C10.** Comma-split segments are never trimmed: a salon with
category_ids `"a, b"` splits into `"a"` and `" b"`, so a Category with id
`"b"` is not incremented during aggregation over that salon nor does the
salon appear in that Category's projected salon_ids — both use exact
string equality on the untrimmed segments. -/
theorem claim_C10 (slugify : String → String) (s : BeautySalon) (cat : Category)
    (hs : s.category_ids = "a, b") (hcat : cat.id = "b") (hcat0 : cat.salon_count = 0) :
    jsSplitComma s.category_ids = ["a", " b"]
    ∧ (processSalon slugify s).category_ids = ["a", " b"]
    ∧ ((processSalon slugify s).category_ids.contains "b") = false
    ∧ (getKey Category.id (countSalons [s] ⟨[], [], [cat]⟩).categories "b").map
        Category.salon_count = some 0
    ∧ (processCategory slugify [processSalon slugify s] cat).salon_ids = [] := by
  have hsplit : (processSalon slugify s).category_ids = ["a", " b"] := by
    rw [show (processSalon slugify s).category_ids = splitMulti s.category_ids from rfl, hs]
    decide
  refine ⟨?_, hsplit, ?_, ?_, ?_⟩
  · rw [hs]
    decide
  · rw [hsplit]
    decide
  · have hget : getKey Category.id [cat] "b" = some cat := by
      rw [getKey_cons]
      simp [getKey, hcat]
    have h := categories_salon_count [s] ⟨[], [], [cat]⟩ "b" cat hget
    rw [hcat0] at h
    simp only [List.map_cons, List.map_nil, List.sum_cons, List.sum_nil] at h
    rw [hs] at h
    rw [h]
    decide
  · rw [show (processCategory slugify [processSalon slugify s] cat).salon_ids =
      (([processSalon slugify s]).filter
        (fun ps => ps.category_ids.contains cat.id)).map (fun ps => ps.id) from rfl, hcat]
    have hcontains : ((processSalon slugify s).category_ids.contains "b") = false := by
      rw [hsplit]
      decide
    simp only [List.filter_cons, hcontains, Bool.false_eq_true, if_false,
      List.filter_nil, List.map_nil]

/-- Witness for C10 at the "a, b" fixture. -/
theorem claim_C10_witness :
    c10Salon.category_ids = "a, b" ∧ c10Cat.id = "b" ∧ c10Cat.salon_count = 0
    ∧ (jsSplitComma c10Salon.category_ids = ["a", " b"]
      ∧ (processSalon (fun s => s) c10Salon).category_ids = ["a", " b"]
      ∧ ((processSalon (fun s => s) c10Salon).category_ids.contains "b") = false
      ∧ (getKey Category.id (countSalons [c10Salon] ⟨[], [], [c10Cat]⟩).categories "b").map
          Category.salon_count = some 0
      ∧ (processCategory (fun s => s) [processSalon (fun s => s) c10Salon]
          c10Cat).salon_ids = []) :=
  ⟨rfl, rfl, rfl, claim_C10 (fun s => s) c10Salon c10Cat rfl rfl rfl⟩


/-! ### Claim theorem: C9 (sitemap chunking) -/
theorem chunksGo_length : ∀ (fuel : Nat) (l : List ProcessedSalon), l.length ≤ fuel →
    (chunksGo l fuel).length = (l.length + 199) / 200
  | 0, l, h => by
    have hl : l = [] := List.eq_nil_of_length_eq_zero (Nat.le_zero.mp h)
    subst hl
    rfl
  | fuel + 1, l, h => by
    rw [chunksGo]
    cases l with
    | nil => rfl
    | cons x xs =>
      rw [if_neg (by simp)]
      rw [List.length_cons,
        chunksGo_length fuel ((x :: xs).drop 200) (by
          rw [List.length_drop]
          simp only [List.length_cons] at h ⊢
          omega),
        List.length_drop, List.length_cons]
      omega

theorem chunksGo_getElem : ∀ (fuel : Nat) (l : List ProcessedSalon), l.length ≤ fuel →
    ∀ j : Nat, (chunksGo l fuel)[j]? =
      if 200 * j < l.length then some ((l.drop (200 * j)).take 200) else none
  | 0, l, h, j => by
    have hl : l = [] := List.eq_nil_of_length_eq_zero (Nat.le_zero.mp h)
    subst hl
    rw [show chunksGo ([] : List ProcessedSalon) 0 = [] from rfl]
    simp
  | fuel + 1, l, h, j => by
    rw [chunksGo]
    cases l with
    | nil => simp
    | cons x xs =>
      rw [if_neg (by simp)]
      cases j with
      | zero =>
        rw [List.getElem?_cons_zero, Nat.mul_zero,
          if_pos (by simp : (0 : Nat) < (x :: xs).length), List.drop_zero]
      | succ j =>
        rw [List.getElem?_cons_succ,
          chunksGo_getElem fuel ((x :: xs).drop 200) (by
            rw [List.length_drop]
            simp only [List.length_cons] at h ⊢
            omega) j,
          List.length_drop, List.drop_drop, Nat.add_comm 200 (200 * j), Nat.mul_succ]
        by_cases hc : 200 * j + 200 < (x :: xs).length
        · rw [if_pos (by omega), if_pos hc]
        · rw [if_neg (by omega), if_neg hc]

/-- **C9.** Company sitemap generation produces exactly
`ceil(salonCount / 200)` files; the `j`-th (0-based) file is named
`companies-sitemap<j+1>.xml` and holds the next 200 projected salons in
order; 450 salons produce 3 files of 200, 200 and 50 entries. -/
theorem claim_C9 (salons : List ProcessedSalon) :
    (companySitemapFiles salons).length = (salons.length + 199) / 200
    ∧ (∀ j : Nat, (companySitemapFiles salons)[j]? =
        if 200 * j < salons.length then
          some ("companies-sitemap" ++ toString (j + 1) ++ ".xml",
            (salons.drop (200 * j)).take 200)
        else none)
    ∧ (salons.length = 450 →
        (companySitemapFiles salons).map (fun f => f.2.length) = [200, 200, 50]) := by
  have hget : ∀ j : Nat, (companySitemapFiles salons)[j]? =
      if 200 * j < salons.length then
        some ("companies-sitemap" ++ toString (j + 1) ++ ".xml",
          (salons.drop (200 * j)).take 200)
      else none := by
    intro j
    rw [companySitemapFiles, List.getElem?_map, List.getElem?_enum,
      show companyChunks salons = chunksGo salons salons.length from rfl,
      chunksGo_getElem salons.length salons (Nat.le_refl _) j]
    by_cases hc : 200 * j < salons.length
    · rw [if_pos hc, if_pos hc]
      rfl
    · rw [if_neg hc, if_neg hc]
      rfl
  refine ⟨?_, hget, ?_⟩
  · rw [companySitemapFiles, List.length_map, List.enum_length,
      show companyChunks salons = chunksGo salons salons.length from rfl,
      chunksGo_length salons.length salons (Nat.le_refl _)]
  · intro h450
    apply List.ext_getElem?
    intro i
    rw [List.getElem?_map, hget i, h450]
    rcases i with _ | (_ | (_ | i))
    · rw [if_pos (by omega)]
      simp [List.length_take, List.length_drop, h450]
    · rw [if_pos (by omega)]
      simp [List.length_take, List.length_drop, h450]
    · rw [if_pos (by omega)]
      simp [List.length_take, List.length_drop, h450]
    · rw [if_neg (by omega)]
      simp

end DirGen


